import Mathlib

/-!
# Verification of the Filestore Snapshot Scheduler

A shallow embedding of `src/scheduler/filestore_instance.py` and
`src/scheduler/main.py`, together with theorems settling the claims about
retention behaviour, validation, retry/poll bounds and the entry point.

Remote calls are modelled by oracles: each oracle field is the value the
(retry-wrapped) remote call produced, `none` standing for a Python `None`
result (exhausted retries / falsy response).  Python exceptions that escape
are modelled with `Except PyErr`.
-/

namespace FilestoreScheduler

/-! ### Constants (from filestore_instance.py and main.py) -/

/-- `SNAP_PREFIX = "sched-"` in filestore_instance.py (name shortened). -/
def SNAP_PFX : String := "sched-"

/-- `SUPPORTED_TIERS` in filestore_instance.py. -/
def SUPPORTED_TIERS : List String := ["ENTERPRISE", "HIGH_SCALE_SSD"]

/-- `MAX_NUMBER_OF_SNAPSHOTS = 240` in filestore_instance.py. -/
def MAX_NUMBER_OF_SNAPSHOTS : Nat := 240

/-- `MAX_RETRIES = 3` in filestore_instance.py. -/
def MAX_RETRIES : Nat := 3

/-- `RETENTION_NAME_LENGTH = 50` in main.py. -/
def RETENTION_NAME_LENGTH : Nat := 50

/-- `MAX_INSTANCES = 8` in main.py. -/
def MAX_INSTANCES : Nat := 8

/-- `monitor_attempts = 8` in `_monitor_operation`. -/
def monitor_attempts : Nat := 8

/-! ### String helpers mirroring the Python operations used by the source -/

/-- Python `needle in hay` (substring containment), as used by
`get_scheduler_snapshots_list`. -/
def py_in (needle hay : String) : Bool :=
  hay.data.tails.any (fun t => needle.data.isPrefixOf t)

/-- Python `s[n:]` (slicing is by characters). -/
def str_drop (s : String) (n : Nat) : String :=
  String.mk (s.data.drop n)

/-- `get_resource_name` in filestore_instance.py: `resource_url.split("/")[-1]`,
i.e. the maximal suffix not containing a slash. -/
def get_resource_name (resource_url : String) : String :=
  String.mk ((resource_url.data.reverse.takeWhile (fun c => c ≠ '/')).reverse)

/-- Python `s.lstrip("/").strip("/")` as applied to `instance_path` in
`FilestoreInstance.__init__` (net effect: strip slashes on both ends). -/
def strip_slashes (s : String) : String :=
  String.mk (((s.data.dropWhile (fun c => c = '/')).reverse.dropWhile
    (fun c => c = '/')).reverse)

/-! ### Timestamp parsing (`time.strptime` with `TIME_PATTERN` + `time.mktime`) -/

def digit_val (c : Char) : Nat := c.toNat - 48

def digits_val (l : List Char) : Nat :=
  l.foldl (fun acc c => acc * 10 + digit_val c) 0

/-- Model of `int(time.mktime(time.strptime(s, TIME_PATTERN)))` with
`TIME_PATTERN = "%Y%m%d-%H%M%S"`: `none` models the `ValueError` raised by
`strptime` on a non-matching string; on success the epoch value is modelled
by the mixed-radix encoding of the parsed fields, which is order-isomorphic
to the epoch (`mktime` is increasing in the broken-down time). -/
def parse_time_pattern (s : String) : Option Nat :=
  match s.data with
  | [y1, y2, y3, y4, m1, m2, d1, d2, dash, h1, h2, n1, n2, c1, c2] =>
    if dash = '-' ∧
       ([y1, y2, y3, y4, m1, m2, d1, d2, h1, h2, n1, n2, c1, c2].all
          (fun c => c.isDigit)) = true then
      let y := digits_val [y1, y2, y3, y4]
      let mo := digits_val [m1, m2]
      let da := digits_val [d1, d2]
      let h := digits_val [h1, h2]
      let mi := digits_val [n1, n2]
      let se := digits_val [c1, c2]
      if 1 ≤ mo ∧ mo ≤ 12 ∧ 1 ≤ da ∧ da ≤ 31 ∧ h ≤ 23 ∧ mi ≤ 59 ∧ se ≤ 61 then
        some (((((y * 100 + mo) * 100 + da) * 100 + h) * 100 + mi) * 100 + se)
      else none
    else none
  | _ => none

/-! ### Snapshots and the scheduler-snapshot subset -/

/-- One entry of the remote snapshot list: the fields read by the source
(`snapshot["name"]`, `snapshot["state"]`). -/
structure Snapshot where
  name : String
  state : String
deriving Repr, DecidableEq

/-- `FilestoreInstance.get_scheduler_snapshots_list`: keeps `snapshot["name"]`
when `f"{SNAP_PREFIX}{self.retention_policy}-" in snapshot["name"]` and
`snapshot["state"] == "READY"`, preserving order. -/
def get_scheduler_snapshots_list (snapshots : List Snapshot)
    (retention_policy : String) : List String :=
  match snapshots with
  | [] => []
  | s :: rest =>
    if py_in (SNAP_PFX ++ retention_policy ++ "-") s.name then
      if s.state = "READY" then
        s.name :: get_scheduler_snapshots_list rest retention_policy
      else get_scheduler_snapshots_list rest retention_policy
    else get_scheduler_snapshots_list rest retention_policy

/-- The epoch computed for one scheduler snapshot inside
`get_oldest_scheduler_snapshot`:
`get_resource_name(snapshot)[snapshot_string_len:]` parsed with
`TIME_PATTERN`, where the cut is `len(SNAP_PREFIX + retention_policy) + 1`. -/
def sched_epoch (retention_policy : String) (snapshot : String) : Option Nat :=
  parse_time_pattern
    (str_drop (get_resource_name snapshot)
      ((SNAP_PFX ++ retention_policy).length + 1))

/-- The `epoch_dict` built by `get_oldest_scheduler_snapshot`, in insertion
order; `none` models the `ValueError` from `strptime` propagating. -/
def snapshot_epochs (retention_policy : String) :
    List String → Option (List (String × Nat))
  | [] => some []
  | s :: rest =>
    match sched_epoch retention_policy s with
    | none => none
    | some e =>
      match snapshot_epochs retention_policy rest with
      | none => none
      | some l => some ((s, e) :: l)

/-- Python `min(epoch_dict, key=epoch_dict.get)`: the first key attaining the
minimal value (Python's `min` keeps the earliest minimum). -/
def min_pair (p : String × Nat) : List (String × Nat) → String × Nat
  | [] => p
  | q :: rest => if q.2 < p.2 then min_pair q rest else min_pair p rest

/-- `FilestoreInstance.get_oldest_scheduler_snapshot`; `Except.error` models
the uncaught `ValueError` when some name's timestamp part does not parse. -/
def get_oldest_scheduler_snapshot (scheduler_snapshots : List String)
    (retention_policy : String) : Except Unit (Option String) :=
  match scheduler_snapshots with
  | [] => Except.ok none
  | s :: rest =>
    match snapshot_epochs retention_policy (s :: rest) with
    | none => Except.error ()
    | some [] => Except.ok none
    | some (p :: l) => Except.ok (some (min_pair p l).1)

/-! ### The FilestoreInstance object -/

/-- State of a `FilestoreInstance` object after `__init__` (the fields read
by the methods; the API client resources have no behaviour of their own). -/
structure FilestoreInstance where
  retention_policy : String
  url : String
  name : String
  max_snapshots : Int
  tier : Option String
  state : Option String
  snapshots : List Snapshot
  scheduler_snapshots : List String
  oldest_sched_snapshot : Option String
deriving Repr, DecidableEq

/-- Python `self.tier not in SUPPORTED_TIERS` test (negated):
`tier` is `filestore_instance_json.get("tier")`, so possibly `None`,
and `None` is never in the list. -/
def tier_in_supported (tier : Option String) : Bool :=
  match tier with
  | some t => SUPPORTED_TIERS.contains t
  | none => false

/-- `FilestoreInstance.validate_instance_requirements`. -/
def validate_instance_requirements (inst : FilestoreInstance) : Bool :=
  if tier_in_supported inst.tier = false then false
  else if inst.snapshots.length = MAX_NUMBER_OF_SNAPSHOTS then false
  else if inst.state ≠ some "READY" then false
  else true

/-- `FilestoreInstance.deletion_needed`. -/
def deletion_needed (inst : FilestoreInstance) : Bool :=
  if (inst.scheduler_snapshots.length : Int) = inst.max_snapshots then true
  else if (inst.scheduler_snapshots.length : Int) > inst.max_snapshots then true
  else false

/-! ### The retry wrapper -/

/-- Result of a run of `retry_wrapper`: the value returned (`none` is
Python's implicit `None` after exhaustion) and how many times the wrapped
function was invoked. -/
structure RetryRun (α : Type) where
  result : Option α
  calls : Nat
deriving Repr

/-- The `while attempts < retries` loop of `retry_wrapper`; `fuel` is
`retries - attempts`, `attempts` the current attempt index.  `func n = none`
models attempt `n` raising one of the two caught exception classes;
`func n = some a` models a successful return. -/
def retry_go {α : Type} (func : Nat → Option α) (attempts : Nat) :
    Nat → RetryRun α
  | 0 => ⟨none, attempts⟩
  | fuel + 1 =>
    match func attempts with
    | some a => ⟨some a, attempts + 1⟩
    | none => retry_go func (attempts + 1) fuel

/-- `retry(func)` applied to one call, with the default `retries=MAX_RETRIES`. -/
def retry_run {α : Type} (func : Nat → Option α) : RetryRun α :=
  retry_go func 0 MAX_RETRIES

/-! ### Operation monitoring -/

/-- The truthiness of the three fields `_monitor_operation` reads from the
operation details: `get("done", False)`, `get("response", False)`,
`get("error", False)`. -/
structure OperationDetails where
  done : Bool
  response : Bool
  error : Bool
deriving Repr, DecidableEq

/-- Result of a `_monitor_operation` run: the returned boolean, the number of
`_get_operation` polls issued, and the list of `time.sleep` durations. -/
structure MonitorRun where
  result : Bool
  polls : Nat
  sleeps : List Nat
deriving Repr, DecidableEq

/-- The `while attempt <= monitor_attempts` loop of `_monitor_operation`.
`get_op a` is the (retry-wrapped) `_get_operation` result at attempt `a`
(`none` a falsy result, leading to an immediate `False`).  `fuel` is
`monitor_attempts + 1 - attempt`. -/
def monitor_go (get_op : Nat → Option OperationDetails) (attempt : Nat) :
    Nat → MonitorRun
  | 0 => ⟨false, 0, []⟩
  | fuel + 1 =>
    match get_op attempt with
    | none => ⟨false, 1, []⟩
    | some d =>
      if d.done && d.response then ⟨true, 1, []⟩
      else if d.done && d.error then ⟨false, 1, []⟩
      else
        let rest := monitor_go get_op (attempt + 1) fuel
        ⟨rest.result, rest.polls + 1,
          (if attempt < monitor_attempts then [2 ^ attempt] else []) ++
            rest.sleeps⟩

/-- `FilestoreInstance._monitor_operation`: the loop starts at `attempt = 1`
and runs while `attempt <= monitor_attempts`. -/
def monitor_operation (get_op : Nat → Option OperationDetails) : MonitorRun :=
  monitor_go get_op 1 monitor_attempts

/-! ### increment_retention -/

/-- The remote calls `increment_retention` can issue (each via the
corresponding method; `delete_snapshot` records the `name=` argument,
which the source sets to `self.oldest_sched_snapshot`). -/
inductive Event where
  | get_instance
  | list_snapshots
  | create_snapshot
  | get_operation (attempt : Nat)
  | delete_snapshot (target : Option String)
deriving Repr, DecidableEq

/-- The poll events of a monitor run with `n` polls (attempts `1..n`). -/
def poll_events (n : Nat) : List Event :=
  (List.range n).map (fun i => Event.get_operation (i + 1))

/-- Python truthiness of the `operation_url` returned by the retry-wrapped
`_create_snapshot` (`None`, or the nonempty `response["name"]`). -/
def truthy_str : Option String → Bool
  | none => false
  | some s => s ≠ ""

/-- `snap_name` computed in `_create_snapshot`:
`f"{SNAP_PREFIX}{self.retention_policy}-{time.strftime(TIME_PATTERN)}"`. -/
def snap_name (retention_policy now_ts : String) : String :=
  SNAP_PFX ++ retention_policy ++ "-" ++ now_ts

/-- `FilestoreInstance.increment_retention`.  `create_result` is the value of
`self._create_snapshot()` (retry-wrapped), `get_op` drives
`self._monitor_operation`.  Returns the object state after the call (the
method assigns none of the attributes) and the trace of remote calls. -/
def increment_retention (inst : FilestoreInstance)
    (create_result : Option String)
    (get_op : Nat → Option OperationDetails) :
    FilestoreInstance × List Event :=
  if truthy_str create_result then
    let run := monitor_operation get_op
    if run.result then
      if deletion_needed inst then
        (inst, Event.create_snapshot :: (poll_events run.polls ++
          [Event.delete_snapshot inst.oldest_sched_snapshot]))
      else (inst, Event.create_snapshot :: poll_events run.polls)
    else (inst, Event.create_snapshot :: poll_events run.polls)
  else (inst, [Event.create_snapshot])

/-! ### JSON values and Python-level primitives (main.py) -/

/-- Parsed JSON values as seen by the Python code (numbers restricted to the
integral ones, the only kind the claims involve). -/
inductive Json where
  | null
  | bool (b : Bool)
  | num (n : Int)
  | str (s : String)
  | arr (elems : List Json)
  | obj (fields : List (String × Json))

/-- Python exceptions that can escape the modelled code, plus the two it
catches (`BadRequest` at `get_json`, `InstanceNotFoundError` in the loop). -/
inductive PyErr where
  | valueError
  | typeError
  | attributeError
  | instanceNotFound
deriving Repr, DecidableEq

/-- Python `d.get(k)` on a dict (`none` when the key is absent or the value
is not a dict — callers that would raise on a non-dict check it first). -/
def jget (j : Json) (k : String) : Option Json :=
  match j with
  | Json.obj fields => (fields.find? (fun f => f.1 = k)).map (fun f => f.2)
  | _ => none

/-- Python truthiness of a JSON-derived value. -/
def truthy : Json → Bool
  | Json.null => false
  | Json.bool b => b
  | Json.num n => n ≠ 0
  | Json.str s => s ≠ ""
  | Json.arr xs => !xs.isEmpty
  | Json.obj fs => !fs.isEmpty

/-- Python `len` on the values it is applied to in main.py. -/
def py_len : Json → Nat
  | Json.str s => s.length
  | Json.arr xs => xs.length
  | Json.obj fs => fs.length
  | _ => 0

/-- Python `int(s)` on a string: optional surrounding whitespace, optional
sign, then decimal digits; otherwise a `ValueError`. -/
def py_int_of_string (s : String) : Option Int :=
  let core := (s.data.dropWhile (fun c => c.isWhitespace)).reverse.dropWhile
    (fun c => c.isWhitespace) |>.reverse
  match core with
  | [] => none
  | '-' :: ds =>
    if ds ≠ [] ∧ (ds.all (fun c => c.isDigit)) = true then
      some (-(digits_val ds : Int)) else none
  | '+' :: ds =>
    if ds ≠ [] ∧ (ds.all (fun c => c.isDigit)) = true then
      some ((digits_val ds : Int)) else none
  | ds =>
    if (ds.all (fun c => c.isDigit)) = true then
      some ((digits_val ds : Int)) else none

/-- Python `int(x)` on a JSON-derived value: numbers and booleans convert,
strings are parsed (`ValueError` on failure), other types raise `TypeError`. -/
def py_int : Json → Except PyErr Int
  | Json.num n => Except.ok n
  | Json.bool b => Except.ok (if b then 1 else 0)
  | Json.str s =>
    match py_int_of_string s with
    | some n => Except.ok n
    | none => Except.error PyErr.valueError
  | Json.null => Except.error PyErr.typeError
  | Json.arr _ => Except.error PyErr.typeError
  | Json.obj _ => Except.error PyErr.typeError

/-- `int(instance_data.get("snapshots"))` in `__init__`: `int(None)` raises
`TypeError`. -/
def py_int_opt : Option Json → Except PyErr Int
  | none => Except.error PyErr.typeError
  | some j => py_int j

/-! ### Request validation (main.py) -/

/-- `validate_json_schema`: `jsonschema.validate` against a schema requiring
an object whose `retention_policy`, when present, is a string and whose
`instances`, when present, is an array (no key is required by the schema). -/
def validate_json_schema (request_json : Json) : Bool :=
  match request_json with
  | Json.obj _ =>
    (match jget request_json "retention_policy" with
     | some (Json.str _) => true
     | none => true
     | some _ => false) &&
    (match jget request_json "instances" with
     | some (Json.arr _) => true
     | none => true
     | some _ => false)
  | _ => false

/-- `validate_json` in main.py. -/
def validate_json (request_json : Json) : Bool :=
  if validate_json_schema request_json = false then false
  else
    match jget request_json "retention_policy" with
    | none => false
    | some rp =>
      if truthy rp = false then false
      else if py_len rp > RETENTION_NAME_LENGTH then false
      else
        match jget request_json "instances" with
        | none => false
        | some ins =>
          if truthy ins = false then false
          else if py_len ins > MAX_INSTANCES then false
          else true

/-- `validate_instance_input` in main.py.  The `Except.error` case is the
uncaught `ValueError`/`TypeError` raised by `int(requested_snapshots)`, or the
`AttributeError` of `.get` on a non-dict entry. -/
def validate_instance_input (instance_data : Json) : Except PyErr Bool :=
  match instance_data with
  | Json.obj _ =>
    match jget instance_data "instance_path" with
    | none => Except.ok false
    | some p =>
      if truthy p = false then Except.ok false
      else
        match jget instance_data "snapshots" with
        | none => Except.ok false
        | some snaps =>
          if truthy snaps = false then Except.ok false
          else
            match py_int snaps with
            | Except.error e => Except.error e
            | Except.ok n =>
              if n ≤ 0 then Except.ok false
              else if n > (MAX_NUMBER_OF_SNAPSHOTS : Int) then Except.ok false
              else Except.ok true
  | _ => Except.error PyErr.attributeError

/-! ### Construction and orchestration (main.py loop body) -/

/-- The fields of `filestore_instance_json` read by the properties
(`.get("tier")`, `.get("state")`). -/
structure InstanceJson where
  tier : Option String
  state : Option String
deriving Repr, DecidableEq

/-- The post-retry results of the remote calls made while processing one
instance, plus the `time.strftime(TIME_PATTERN)` value at create time. -/
structure RemoteOracle where
  get_instance : Option InstanceJson
  list_snapshots : Option (List Snapshot)
  create_snapshot : Option String
  get_operation : Nat → Option OperationDetails
  now_ts : String

/-- `FilestoreInstance.__init__` over oracle results, with the trace of the
remote calls it issues.  `get_instance = none` models a falsy
`filestore_instance_json` (raises `InstanceNotFoundError`);
`list_snapshots = none` models retries exhausted, leaving
`self.snapshots = None`, over which the `for` loop of
`get_scheduler_snapshots_list` raises `TypeError`; a scheduler snapshot whose
timestamp part does not parse raises `ValueError` in
`get_oldest_scheduler_snapshot`. -/
def init_instance (instance_data : Json) (retention_policy : String)
    (orc : RemoteOracle) : Except PyErr FilestoreInstance × List Event :=
  match jget instance_data "instance_path" with
  | some (Json.str p) =>
    let url := strip_slashes p
    match py_int_opt (jget instance_data "snapshots") with
    | Except.error e => (Except.error e, [])
    | Except.ok maxSnaps =>
      match orc.get_instance with
      | none => (Except.error PyErr.instanceNotFound, [Event.get_instance])
      | some ij =>
        match orc.list_snapshots with
        | none =>
          (Except.error PyErr.typeError,
            [Event.get_instance, Event.list_snapshots])
        | some snaps =>
          let sched := get_scheduler_snapshots_list snaps retention_policy
          match get_oldest_scheduler_snapshot sched retention_policy with
          | Except.error _ =>
            (Except.error PyErr.valueError,
              [Event.get_instance, Event.list_snapshots])
          | Except.ok oldest =>
            (Except.ok
              ⟨retention_policy, url, get_resource_name url, maxSnaps,
                ij.tier, ij.state, snaps, sched, oldest⟩,
              [Event.get_instance, Event.list_snapshots])
  | _ => (Except.error PyErr.attributeError, [])

/-- The body of the `for instance_data in request_json["instances"]` loop in
`main`: validate the instance input, construct the `FilestoreInstance`
(catching only `InstanceNotFoundError`), then gate `increment_retention`
behind `validate_instance_requirements`. -/
def process_instance (instance_data : Json) (retention_policy : String)
    (orc : RemoteOracle) : Except PyErr Unit × List Event :=
  match validate_instance_input instance_data with
  | Except.error e => (Except.error e, [])
  | Except.ok false => (Except.ok (), [])
  | Except.ok true =>
    match init_instance instance_data retention_policy orc with
    | (Except.error PyErr.instanceNotFound, evs) => (Except.ok (), evs)
    | (Except.error e, evs) => (Except.error e, evs)
    | (Except.ok filer, evs) =>
      if validate_instance_requirements filer then
        (Except.ok (),
          evs ++ (increment_retention filer orc.create_snapshot
            orc.get_operation).2)
      else (Except.ok (), evs)

/-- The instance loop of `main`; an uncaught exception aborts the loop. -/
def run_instances (retention_policy : String) (oracles : Nat → RemoteOracle) :
    List Json → Nat → Except PyErr Unit × List Event
  | [], _ => (Except.ok (), [])
  | d :: rest, i =>
    match process_instance d retention_policy (oracles i) with
    | (Except.error e, evs) => (Except.error e, evs)
    | (Except.ok _, evs) =>
      let r := run_instances retention_policy oracles rest (i + 1)
      (r.1, evs ++ r.2)

/-- `main` in main.py.  `body = Except.error ()` models `get_json` raising
`BadRequest` (caught, returning "done with error").  The returned
`Except.error` is an exception escaping `main`; the event list is the trace
of remote calls issued. -/
def main (body : Except Unit Json) (oracles : Nat → RemoteOracle) :
    Except PyErr String × List Event :=
  match body with
  | Except.error _ => (Except.ok "done with error", [])
  | Except.ok request_json =>
    if validate_json request_json then
      match jget request_json "instances" with
      | some (Json.arr instances) =>
        let policy :=
          match jget request_json "retention_policy" with
          | some (Json.str s) => s
          | _ => ""
        let r := run_instances policy oracles instances 0
        (Except.map (fun _ => "done") r.1, r.2)
      | _ => (Except.ok "done", [])
    else (Except.ok "done with error", [])

/-! ### Helper definitions for the theorems -/

/-- Whether an event is a delete call. -/
def is_delete : Event → Bool
  | Event.delete_snapshot _ => true
  | _ => false

/-- Whether an event is a create call. -/
def is_create : Event → Bool
  | Event.create_snapshot => true
  | _ => false

/-- Number of delete calls in a trace. -/
def count_deletes (evs : List Event) : Nat := evs.countP is_delete

/-- An oracle on which every remote call fails. -/
def orc_none : RemoteOracle := ⟨none, none, none, fun _ => none, ""⟩

def oracles_none : Nat → RemoteOracle := fun _ => orc_none

/-- Modelled from the spec: the naming convention
`sched-<retention_policy>-<YYYYMMDD-HHMMSS>` — the name starts with the
scheduler marker and the remainder is a valid timestamp.  Used only to
compare the spec's wording with the code's substring filter. -/
def matches_convention (name retention_policy : String) : Bool :=
  ((SNAP_PFX ++ retention_policy ++ "-").data.isPrefixOf name.data) &&
    (parse_time_pattern (String.mk
      (name.data.drop
        (SNAP_PFX ++ retention_policy ++ "-").data.length))).isSome

/-- A foreign snapshot whose name merely contains the scheduler marker. -/
def c4_snap : Snapshot := ⟨"xsched-daily-20220101-000000", "READY"⟩

/-- An instance state with 241 snapshots (above the remote limit). -/
def c2_inst : FilestoreInstance :=
  ⟨"daily", "projects/p/locations/l/instances/i", "i", 5,
    some "ENTERPRISE", some "READY",
    List.replicate 241 ⟨"snap", "READY"⟩, [], none⟩

/-- Instance input used by witnesses. -/
def c2w_data : Json :=
  Json.obj [("instance_path", Json.str "projects/p/locations/l/instances/i"),
    ("snapshots", Json.num 3)]

/-- An oracle whose instance has a tier outside the allow-list. -/
def c2w_orc : RemoteOracle :=
  ⟨some ⟨some "BASIC_HDD", some "READY"⟩, some [], none, fun _ => none, ""⟩

/-- The instance state `init_instance` builds from `c2w_data`/`c2w_orc`. -/
def c2w_filer : FilestoreInstance :=
  ⟨"daily", "projects/p/locations/l/instances/i", "i", 3,
    some "BASIC_HDD", some "READY", [], [], none⟩

/-- A request whose single instance entry has a snapshots value that does
not parse as an integer. -/
def c3_bad_request : Json :=
  Json.obj [("retention_policy", Json.str "daily"),
    ("instances", Json.arr
      [Json.obj [("instance_path", Json.str "projects/p/locations/l/instances/i"),
        ("snapshots", Json.str "abc")]])]

/-- A request whose instance entries are each individually invalid in a way
the code skips (empty path, snapshots 0, snapshots above 240). -/
def c3_skip_request : Json :=
  Json.obj [("retention_policy", Json.str "daily"),
    ("instances", Json.arr
      [Json.obj [("instance_path", Json.str "")],
        Json.obj [("instance_path", Json.str "projects/p"),
          ("snapshots", Json.num 0)],
        Json.obj [("instance_path", Json.str "projects/p"),
          ("snapshots", Json.num 500)]])]

/-- The spec's example pair of scheduler snapshots. -/
def c5_example : List String :=
  ["sched-daily-20220101-000000", "sched-daily-20220102-000000"]

/-- Epoch assignment realizing the parses of `c5_example`. -/
def c5_epochs : String → Nat := fun s => (sched_epoch "daily" s).getD 0

/-- An instance state one snapshot over its retention target. -/
def c6_inst : FilestoreInstance :=
  ⟨"daily", "projects/p/locations/l/instances/i", "i", 1,
    some "ENTERPRISE", some "READY",
    [⟨"a", "READY"⟩, ⟨"b", "READY"⟩], ["a", "b"], some "a"⟩

/-- An instance state at its retention target. -/
def c1_inst : FilestoreInstance :=
  ⟨"daily", "projects/p/locations/l/instances/i", "i", 1,
    some "ENTERPRISE", some "READY",
    [⟨"sched-daily-20220101-000000", "READY"⟩],
    ["sched-daily-20220101-000000"], some "sched-daily-20220101-000000"⟩

/-- A poll oracle reporting immediate success. -/
def c1_get_op : Nat → Option OperationDetails := fun _ => some ⟨true, true, false⟩

/-- Instance input for the construction-based witnesses. -/
def c8_data : Json :=
  Json.obj [("instance_path", Json.str "projects/p/locations/l/instances/i"),
    ("snapshots", Json.num 1)]

/-- An oracle with one existing scheduler snapshot and a later creation
timestamp. -/
def c8_orc : RemoteOracle :=
  ⟨some ⟨some "ENTERPRISE", some "READY"⟩,
    some [⟨"sched-daily-20220101-000000", "READY"⟩],
    some "operations/op1", fun _ => some ⟨true, true, false⟩,
    "20230101-000000"⟩

/-- The instance state `init_instance` builds from `c8_data`/`c8_orc`. -/
def c8_filer : FilestoreInstance :=
  ⟨"daily", "projects/p/locations/l/instances/i", "i", 1,
    some "ENTERPRISE", some "READY",
    [⟨"sched-daily-20220101-000000", "READY"⟩],
    ["sched-daily-20220101-000000"], some "sched-daily-20220101-000000"⟩

/-- Operation details reporting done with neither response nor error. -/
def stalled_details : OperationDetails := ⟨true, false, false⟩

/-! ### Lemmas about traces -/

theorem is_delete_poll_events {e : Event} {n : Nat} (h : e ∈ poll_events n) :
    is_delete e = false := by
  rcases List.mem_map.mp h with ⟨i, _, rfl⟩
  rfl

theorem count_deletes_poll_events (n : Nat) :
    count_deletes (poll_events n) = 0 := by
  apply List.countP_eq_zero.mpr
  intro e he
  simp [is_delete_poll_events he]

theorem delete_not_mem_poll_events {t : Option String} {n : Nat} :
    Event.delete_snapshot t ∉ poll_events n := by
  intro h
  have := is_delete_poll_events h
  simp [is_delete] at this

/-! ### Lemmas about the instance-level predicates -/

theorem validate_requirements_iff (inst : FilestoreInstance) :
    validate_instance_requirements inst = true ↔
      (tier_in_supported inst.tier = true ∧
        inst.snapshots.length ≠ MAX_NUMBER_OF_SNAPSHOTS ∧
        inst.state = some "READY") := by
  unfold validate_instance_requirements
  cases h1 : tier_in_supported inst.tier <;>
    by_cases h2 : inst.snapshots.length = MAX_NUMBER_OF_SNAPSHOTS <;>
      by_cases h3 : inst.state = some "READY" <;>
        simp [h1, h2, h3]

theorem deletion_needed_iff (inst : FilestoreInstance) :
    deletion_needed inst = true ↔
      inst.max_snapshots ≤ (inst.scheduler_snapshots.length : Int) := by
  unfold deletion_needed
  by_cases h1 : (inst.scheduler_snapshots.length : Int) = inst.max_snapshots <;>
    by_cases h2 : (inst.scheduler_snapshots.length : Int) > inst.max_snapshots <;>
      simp [h1, h2] <;> omega

/-! ### Lemmas about increment_retention -/

theorem increment_state_id (inst : FilestoreInstance)
    (create_result : Option String)
    (get_op : Nat → Option OperationDetails) :
    (increment_retention inst create_result get_op).1 = inst := by
  unfold increment_retention
  by_cases h1 : truthy_str create_result <;>
    by_cases h2 : (monitor_operation get_op).result <;> simp [h1, h2]
  by_cases h3 : deletion_needed inst <;> simp [h3]

theorem increment_deletes_le_one (inst : FilestoreInstance)
    (create_result : Option String)
    (get_op : Nat → Option OperationDetails) :
    count_deletes (increment_retention inst create_result get_op).2 ≤ 1 := by
  have hp := count_deletes_poll_events (monitor_operation get_op).polls
  simp only [count_deletes] at hp ⊢
  unfold increment_retention
  by_cases h1 : truthy_str create_result <;> simp only [h1, if_true, if_false]
  · by_cases h2 : (monitor_operation get_op).result <;>
      simp only [h2, if_true, if_false]
    · by_cases h3 : deletion_needed inst <;>
        simp only [h3, if_true, if_false] <;>
        simp [List.countP_cons, List.countP_append, is_delete, hp]
    · simp [List.countP_cons, is_delete, hp]
  · simp [List.countP_cons, is_delete]

theorem increment_delete_mem (inst : FilestoreInstance)
    (create_result : Option String)
    (get_op : Nat → Option OperationDetails) (t : Option String)
    (h : Event.delete_snapshot t ∈
      (increment_retention inst create_result get_op).2) :
    truthy_str create_result = true ∧
      (monitor_operation get_op).result = true ∧
      deletion_needed inst = true ∧
      t = inst.oldest_sched_snapshot := by
  unfold increment_retention at h
  by_cases h1 : truthy_str create_result <;> simp [h1] at h
  · by_cases h2 : (monitor_operation get_op).result <;> simp [h2] at h
    · by_cases h3 : deletion_needed inst <;> simp [h3] at h
      · rcases h with h | h
        · exact absurd h delete_not_mem_poll_events
        · exact ⟨h1, h2, h3, h.symm ▸ rfl⟩
      · exact absurd h delete_not_mem_poll_events
    · exact absurd h delete_not_mem_poll_events

theorem increment_no_delete (inst : FilestoreInstance)
    (create_result : Option String)
    (get_op : Nat → Option OperationDetails)
    (h : truthy_str create_result = false ∨
      (monitor_operation get_op).result = false) :
    count_deletes (increment_retention inst create_result get_op).2 = 0 := by
  have hp := count_deletes_poll_events (monitor_operation get_op).polls
  simp only [count_deletes] at hp ⊢
  unfold increment_retention
  rcases h with h | h
  · simp [h, List.countP_cons, is_delete]
  · by_cases h1 : truthy_str create_result <;>
      simp [h1, h, List.countP_cons, is_delete, hp]

/-! ### Lemmas about the retry wrapper -/

theorem retry_go_calls_le {α : Type} (func : Nat → Option α)
    (attempts fuel : Nat) :
    (retry_go func attempts fuel).calls ≤ attempts + fuel := by
  induction fuel generalizing attempts with
  | zero => simp [retry_go]
  | succ n ih =>
    unfold retry_go
    cases h : func attempts with
    | some a =>
      simp only [h]
      omega
    | none =>
      simp only [h]
      have := ih (attempts + 1)
      omega

theorem retry_go_exhaust {α : Type} (func : Nat → Option α)
    (attempts fuel : Nat)
    (h : ∀ i, attempts ≤ i → i < attempts + fuel → func i = none) :
    (retry_go func attempts fuel).result = none := by
  induction fuel generalizing attempts with
  | zero => simp [retry_go]
  | succ n ih =>
    unfold retry_go
    rw [h attempts (Nat.le_refl _) (by omega)]
    exact ih (attempts + 1) (fun i h1 h2 => h i (by omega) (by omega))

/-! ### Lemmas about the monitor loop -/

theorem monitor_go_polls_le (get_op : Nat → Option OperationDetails)
    (attempt fuel : Nat) :
    (monitor_go get_op attempt fuel).polls ≤ fuel := by
  induction fuel generalizing attempt with
  | zero => simp [monitor_go]
  | succ n ih =>
    unfold monitor_go
    cases h : get_op attempt with
    | none =>
      simp only [h]
      omega
    | some d =>
      simp only [h]
      by_cases h1 : (d.done && d.response) = true
      · simp only [if_pos h1]
        omega
      · simp only [if_neg h1]
        by_cases h2 : (d.done && d.error) = true
        · simp only [if_pos h2]
          omega
        · simp only [if_neg h2]
          have := ih (attempt + 1)
          omega

theorem monitor_go_polls_pos (get_op : Nat → Option OperationDetails)
    (attempt fuel : Nat) (h : 1 ≤ fuel) :
    1 ≤ (monitor_go get_op attempt fuel).polls := by
  cases fuel with
  | zero => omega
  | succ n =>
    unfold monitor_go
    cases hg : get_op attempt with
    | none =>
      simp only [hg]
      omega
    | some d =>
      simp only [hg]
      by_cases h1 : (d.done && d.response) = true
      · simp only [if_pos h1]
        omega
      · simp only [if_neg h1]
        by_cases h2 : (d.done && d.error) = true
        · simp only [if_pos h2]
          omega
        · simp only [if_neg h2]
          omega

theorem monitor_go_true_reaches (get_op : Nat → Option OperationDetails)
    (attempt fuel : Nat)
    (h : (monitor_go get_op attempt fuel).result = true) :
    ∃ k, attempt ≤ k ∧ k < attempt + fuel ∧
      ∃ d, get_op k = some d ∧ d.done = true ∧ d.response = true := by
  induction fuel generalizing attempt with
  | zero => simp [monitor_go] at h
  | succ n ih =>
    unfold monitor_go at h
    cases hg : get_op attempt with
    | none =>
      simp only [hg] at h
      exact absurd h (by simp)
    | some d =>
      simp only [hg] at h
      by_cases h1 : (d.done && d.response) = true
      · have h1' : d.done = true ∧ d.response = true := by
          constructor <;> revert h1 <;> cases d.done <;> cases d.response <;>
            simp
        exact ⟨attempt, Nat.le_refl _, by omega, d, hg, h1'.1, h1'.2⟩
      · rw [if_neg h1] at h
        by_cases h2 : (d.done && d.error) = true
        · rw [if_pos h2] at h
          simp at h
        · rw [if_neg h2] at h
          rcases ih (attempt + 1) h with ⟨k, hk1, hk2, hd⟩
          exact ⟨k, by omega, by omega, hd⟩

/-- The sleeps of a monitor run are `2^attempt` for the consecutive attempts
that continued, starting at the loop's entry attempt. -/
theorem monitor_go_sleeps (get_op : Nat → Option OperationDetails)
    (attempt fuel : Nat) (h : attempt + fuel = monitor_attempts + 1) :
    (monitor_go get_op attempt fuel).sleeps =
      (List.range ((monitor_go get_op attempt fuel).polls - 1)).map
        (fun i => 2 ^ (attempt + i)) := by
  induction fuel generalizing attempt with
  | zero => simp [monitor_go]
  | succ n ih =>
    unfold monitor_go
    cases hg : get_op attempt with
    | none =>
      simp only [hg]
      simp
    | some d =>
      simp only [hg]
      by_cases h1 : (d.done && d.response) = true
      · simp only [if_pos h1]
        simp
      · simp only [if_neg h1]
        by_cases h2 : (d.done && d.error) = true
        · simp only [if_pos h2]
          simp
        · simp only [if_neg h2]
          have hrest := ih (attempt + 1) (by omega)
          by_cases ha : attempt < monitor_attempts
          · have hn : 1 ≤ n := by
              simp only [monitor_attempts] at h ha ⊢
              omega
            have hp := monitor_go_polls_pos get_op (attempt + 1) n hn
            simp only [if_pos ha]
            rcases Nat.exists_eq_add_of_le hp with ⟨m, hm⟩
            rw [hrest]
            rw [Nat.add_comm 1 m] at hm
            simp only [hm, Nat.add_sub_cancel]
            rw [List.range_succ_eq_map]
            simp only [List.map_cons, List.map_map, List.singleton_append,
              Nat.add_zero]
            congr 1
            apply List.map_congr_left
            intro i _
            simp only [Function.comp_apply]
            congr 1
            omega
          · have hn : n = 0 := by
              simp only [monitor_attempts] at h ha ⊢
              omega
            simp only [if_neg ha, hn]
            simp [monitor_go]

/-! ### Lemmas about oldest-snapshot selection -/

theorem min_pair_mem (p : String × Nat) (l : List (String × Nat)) :
    min_pair p l ∈ p :: l := by
  induction l generalizing p with
  | nil => simp [min_pair]
  | cons q rest ih =>
    unfold min_pair
    by_cases h : q.2 < p.2
    · rw [if_pos h]
      rcases List.mem_cons.mp (ih q) with h1 | h1
      · simp [h1]
      · simp [List.mem_cons, h1]
    · rw [if_neg h]
      rcases List.mem_cons.mp (ih p) with h1 | h1
      · simp [h1]
      · simp [List.mem_cons, h1]

theorem min_pair_le (p : String × Nat) (l : List (String × Nat)) :
    ∀ q ∈ p :: l, (min_pair p l).2 ≤ q.2 := by
  induction l generalizing p with
  | nil =>
    intro q hq
    simp at hq
    subst hq
    simp [min_pair]
  | cons r rest ih =>
    intro q hq
    unfold min_pair
    simp only [List.mem_cons] at hq
    by_cases h : r.2 < p.2
    · rw [if_pos h]
      rcases hq with hq | hq | hq
      · have h1 := ih r r (by simp)
        rw [hq]
        omega
      · rw [hq]
        exact ih r r (by simp)
      · exact ih r q (by simp [hq])
    · rw [if_neg h]
      rcases hq with hq | hq | hq
      · rw [hq]
        exact ih p p (by simp)
      · have h1 := ih p p (by simp)
        rw [hq]
        omega
      · exact ih p q (by simp [hq])

theorem snapshot_epochs_keys (retention_policy : String)
    (sched : List String) (l : List (String × Nat))
    (h : snapshot_epochs retention_policy sched = some l) :
    l.map Prod.fst = sched := by
  induction sched generalizing l with
  | nil =>
    simp [snapshot_epochs] at h
    simp [← h]
  | cons s rest ih =>
    unfold snapshot_epochs at h
    cases he : sched_epoch retention_policy s with
    | none => rw [he] at h; exact absurd h (by simp)
    | some e =>
      rw [he] at h
      cases hr : snapshot_epochs retention_policy rest with
      | none => rw [hr] at h; exact absurd h (by simp)
      | some l2 =>
        rw [hr] at h
        have h' : (s, e) :: l2 = l := by
          have := Option.some.inj h
          exact this
        rw [← h']
        simp [ih l2 hr]

theorem snapshot_epochs_of_parse (retention_policy : String)
    (sched : List String) (epochs : String → Nat)
    (h : ∀ s ∈ sched, sched_epoch retention_policy s = some (epochs s)) :
    snapshot_epochs retention_policy sched =
      some (sched.map (fun s => (s, epochs s))) := by
  induction sched with
  | nil => simp [snapshot_epochs]
  | cons s rest ih =>
    unfold snapshot_epochs
    rw [h s (by simp)]
    rw [ih (fun x hx => h x (by simp [hx]))]
    simp

theorem get_oldest_mem (scheduler_snapshots : List String)
    (retention_policy : String) (m : String)
    (h : get_oldest_scheduler_snapshot scheduler_snapshots retention_policy =
      Except.ok (some m)) :
    m ∈ scheduler_snapshots := by
  cases scheduler_snapshots with
  | nil => simp [get_oldest_scheduler_snapshot] at h
  | cons s rest =>
    cases he : snapshot_epochs retention_policy (s :: rest) with
    | none =>
      simp only [get_oldest_scheduler_snapshot, he] at h
      exact absurd h (by simp)
    | some l =>
      simp only [get_oldest_scheduler_snapshot, he] at h
      cases l with
      | nil => exact absurd h (by simp)
      | cons p l2 =>
        have hm : (min_pair p l2).1 = m := by
          have := Except.ok.inj h
          exact Option.some.inj this
        have hkeys := snapshot_epochs_keys retention_policy (s :: rest)
          (p :: l2) he
        have hmem := min_pair_mem p l2
        rw [← hkeys, ← hm]
        exact List.mem_map_of_mem Prod.fst hmem

theorem get_oldest_min (scheduler_snapshots : List String)
    (retention_policy : String) (epochs : String → Nat)
    (hne : scheduler_snapshots ≠ [])
    (h : ∀ s ∈ scheduler_snapshots,
      sched_epoch retention_policy s = some (epochs s)) :
    ∃ m, get_oldest_scheduler_snapshot scheduler_snapshots retention_policy =
        Except.ok (some m) ∧
      m ∈ scheduler_snapshots ∧
      ∀ s ∈ scheduler_snapshots, epochs m ≤ epochs s := by
  cases scheduler_snapshots with
  | nil => exact absurd rfl hne
  | cons s rest =>
    have he := snapshot_epochs_of_parse retention_policy (s :: rest) epochs h
    refine ⟨(min_pair (s, epochs s) (rest.map (fun x => (x, epochs x)))).1,
      ?_, ?_, ?_⟩
    · simp only [get_oldest_scheduler_snapshot, he]
      simp
    · have hmem := min_pair_mem (s, epochs s)
        (rest.map (fun x => (x, epochs x)))
      have : min_pair (s, epochs s) (rest.map (fun x => (x, epochs x))) ∈
          (s :: rest).map (fun x => (x, epochs x)) := by
        simpa using hmem
      rcases List.mem_map.mp this with ⟨x, hx, hxe⟩
      rw [← hxe]
      exact hx
    · intro t ht
      have hmem := min_pair_mem (s, epochs s)
        (rest.map (fun x => (x, epochs x)))
      have hin : min_pair (s, epochs s) (rest.map (fun x => (x, epochs x))) ∈
          (s :: rest).map (fun x => (x, epochs x)) := by
        simpa using hmem
      rcases List.mem_map.mp hin with ⟨x, hx, hxe⟩
      have hle := min_pair_le (s, epochs s)
        (rest.map (fun x => (x, epochs x))) (t, epochs t)
        (by simpa using List.mem_map_of_mem (fun x => (x, epochs x)) ht)
      have h2 : (min_pair (s, epochs s)
          (rest.map (fun x => (x, epochs x)))).2 = epochs
          (min_pair (s, epochs s) (rest.map (fun x => (x, epochs x)))).1 := by
        rw [← hxe]
      rw [h2] at hle
      exact hle

/-! ### Lemmas about the scheduler-snapshot filter -/

theorem sched_list_eq_filter (snapshots : List Snapshot) (policy : String) :
    get_scheduler_snapshots_list snapshots policy =
      (snapshots.filter (fun s =>
        py_in (SNAP_PFX ++ policy ++ "-") s.name &&
          decide (s.state = "READY"))).map Snapshot.name := by
  induction snapshots with
  | nil => rfl
  | cons s rest ih =>
    unfold get_scheduler_snapshots_list
    by_cases h1 : py_in (SNAP_PFX ++ policy ++ "-") s.name = true
    · by_cases h2 : s.state = "READY"
      · simp [h1, h2, List.filter_cons, ih]
      · simp [h1, h2, List.filter_cons, ih]
    · simp only [Bool.not_eq_true] at h1
      simp [h1, List.filter_cons, ih]

/-! ### Lemmas about construction (init) and the loop body -/

theorem init_ok (d : Json) (policy : String) (orc : RemoteOracle)
    (filer : FilestoreInstance) (evs : List Event)
    (h : init_instance d policy orc = (Except.ok filer, evs)) :
    filer.retention_policy = policy ∧
      filer.scheduler_snapshots =
        get_scheduler_snapshots_list filer.snapshots policy ∧
      get_oldest_scheduler_snapshot filer.scheduler_snapshots policy =
        Except.ok filer.oldest_sched_snapshot ∧
      evs = [Event.get_instance, Event.list_snapshots] := by
  unfold init_instance at h
  split at h
  · rcases h1 : py_int_opt (jget d "snapshots") with e | maxSnaps <;>
      simp only [h1] at h
    · exact absurd h (by simp)
    · rcases h2 : orc.get_instance with _ | ij <;> simp only [h2] at h
      · exact absurd h (by simp)
      · rcases h3 : orc.list_snapshots with _ | snaps <;> simp only [h3] at h
        · exact absurd h (by simp)
        · rcases h4 : get_oldest_scheduler_snapshot
              (get_scheduler_snapshots_list snaps policy) policy
            with _ | oldest <;> simp only [h4] at h
          · exact absurd h (by simp)
          · have h5 := (Prod.mk.injEq _ _ _ _).mp h
            have h6 := Except.ok.inj h5.1
            rw [← h6]
            exact ⟨rfl, rfl, h4, h5.2.symm ▸ rfl⟩
  · exact absurd h (by simp)

theorem init_events_sub (d : Json) (policy : String) (orc : RemoteOracle) :
    ∀ e ∈ (init_instance d policy orc).2,
      e = Event.get_instance ∨ e = Event.list_snapshots := by
  unfold init_instance
  split
  · rcases h1 : py_int_opt (jget d "snapshots") with e | maxSnaps <;>
      simp only [h1]
    · simp
    · rcases h2 : orc.get_instance with _ | ij <;> simp only [h2]
      · simp
      · rcases h3 : orc.list_snapshots with _ | snaps <;> simp only [h3]
        · intro e he
          simp at he
          rcases he with he | he <;> simp [he]
        · rcases h4 : get_oldest_scheduler_snapshot
              (get_scheduler_snapshots_list snaps policy) policy
            with _ | oldest <;> simp only [h4] <;>
          · intro e he
            simp at he
            rcases he with he | he <;> simp [he]
  · simp

theorem process_trace_gate (d : Json) (policy : String) (orc : RemoteOracle)
    (filer : FilestoreInstance) (evs : List Event)
    (hinit : init_instance d policy orc = (Except.ok filer, evs))
    (hv : validate_instance_requirements filer = false) :
    ∀ e ∈ (process_instance d policy orc).2,
      e = Event.get_instance ∨ e = Event.list_snapshots := by
  unfold process_instance
  rcases hvi : validate_instance_input d with e | b
  · simp [hvi]
  · cases b
    · simp [hvi]
    · simp only [hvi, hinit, hv]
      intro e he
      exact init_events_sub d policy orc e (by rw [hinit]; exact he)

/-! ### Characterization of top-level request validation -/

theorem validate_json_characterization (j : Json) :
    validate_json j = true ↔
      ((∃ s, jget j "retention_policy" = some (Json.str s) ∧ s ≠ "" ∧
          s.length ≤ RETENTION_NAME_LENGTH) ∧
        (∃ xs, jget j "instances" = some (Json.arr xs) ∧ xs ≠ [] ∧
          xs.length ≤ MAX_INSTANCES)) := by
  cases j with
  | null => simp [validate_json, validate_json_schema, jget]
  | bool b => simp [validate_json, validate_json_schema, jget]
  | num n => simp [validate_json, validate_json_schema, jget]
  | str s => simp [validate_json, validate_json_schema, jget]
  | arr xs => simp [validate_json, validate_json_schema, jget]
  | obj fs =>
    cases hr : jget (Json.obj fs) "retention_policy" with
    | none => simp [validate_json, validate_json_schema, hr]
    | some v =>
      cases hi : jget (Json.obj fs) "instances" with
      | none =>
        cases v <;>
          simp [validate_json, validate_json_schema, hr, hi, truthy, py_len]
      | some w =>
        cases v <;> cases w <;>
          simp [validate_json, validate_json_schema, hr, hi, truthy, py_len,
            RETENTION_NAME_LENGTH, MAX_INSTANCES]
        tauto

/-! ### String facts for the freshness argument -/

theorem get_resource_name_no_slash (s : String)
    (h : ∀ c ∈ s.data, c ≠ '/') : get_resource_name s = s := by
  obtain ⟨l⟩ := s
  unfold get_resource_name
  rw [List.takeWhile_eq_self_iff.mpr (by
    intro c hc
    simp only [List.mem_reverse] at hc
    simpa using h c hc)]
  rw [List.reverse_reverse]

theorem sched_epoch_snap_name (policy now : String)
    (hp : ∀ c ∈ policy.data, c ≠ '/') (hn : ∀ c ∈ now.data, c ≠ '/') :
    sched_epoch policy (snap_name policy now) = parse_time_pattern now := by
  unfold sched_epoch snap_name
  have hall : ∀ c ∈ (SNAP_PFX ++ policy ++ "-" ++ now).data, c ≠ '/' := by
    intro c hc
    simp only [String.data_append, List.mem_append] at hc
    rcases hc with ((hc | hc) | hc) | hc
    · revert hc
      have : ∀ c ∈ SNAP_PFX.data, c ≠ '/' := by decide
      exact this c
    · exact hp c hc
    · revert hc
      have : ∀ c ∈ ("-" : String).data, c ≠ '/' := by decide
      exact this c
    · exact hn c hc
  rw [get_resource_name_no_slash _ hall]
  unfold str_drop
  have hlen : (SNAP_PFX ++ policy).length + 1 =
      ((SNAP_PFX ++ policy ++ "-").data).length := by
    simp [String.data_append]
    rfl
  have hdata : (SNAP_PFX ++ policy ++ "-" ++ now).data =
      (SNAP_PFX ++ policy ++ "-").data ++ now.data := String.data_append _ _
  rw [hdata, hlen, List.drop_left]

theorem snap_name_not_mem (policy now : String) (sched : List String)
    (e : Nat) (hnow : parse_time_pattern now = some e)
    (hp : ∀ c ∈ policy.data, c ≠ '/') (hn : ∀ c ∈ now.data, c ≠ '/')
    (hfresh : ∀ s ∈ sched, (sched_epoch policy s).getD 0 < e) :
    snap_name policy now ∉ sched := by
  intro hmem
  have h1 := hfresh _ hmem
  rw [sched_epoch_snap_name policy now hp hn, hnow] at h1
  simp at h1

theorem get_oldest_nonempty (sched : List String) (policy : String)
    (o : Option String) (hne : sched ≠ [])
    (h : get_oldest_scheduler_snapshot sched policy = Except.ok o) :
    ∃ m, o = some m ∧ m ∈ sched := by
  cases sched with
  | nil => exact absurd rfl hne
  | cons s rest =>
    cases he : snapshot_epochs policy (s :: rest) with
    | none =>
      simp only [get_oldest_scheduler_snapshot, he] at h
      exact absurd h (by simp)
    | some l =>
      cases l with
      | nil =>
        have := snapshot_epochs_keys policy (s :: rest) [] he
        simp at this
      | cons p l2 =>
        simp only [get_oldest_scheduler_snapshot, he] at h
        have ho := Except.ok.inj h
        refine ⟨(min_pair p l2).1, ho.symm, ?_⟩
        have hkeys := snapshot_epochs_keys policy (s :: rest) (p :: l2) he
        have hmem := min_pair_mem p l2
        rw [← hkeys]
        exact List.mem_map_of_mem Prod.fst hmem

/-! ## The claims -/

/-- C1: for every instance, `increment_retention` issues at most one delete
per invocation, and a delete occurs only when the create call returned a
truthy (non-empty) operation handle and monitoring reported success; every
delete targets the previously computed oldest scheduler snapshot; when the
handle is falsy or monitoring fails, no delete call is issued. -/
theorem C1_increment_delete_discipline (inst : FilestoreInstance)
    (create_result : Option String)
    (get_op : Nat → Option OperationDetails) :
    count_deletes (increment_retention inst create_result get_op).2 ≤ 1 ∧
    (∀ t, Event.delete_snapshot t ∈
        (increment_retention inst create_result get_op).2 →
      truthy_str create_result = true ∧
        (monitor_operation get_op).result = true ∧
        t = inst.oldest_sched_snapshot) ∧
    (truthy_str create_result = false ∨
        (monitor_operation get_op).result = false →
      count_deletes (increment_retention inst create_result get_op).2 = 0) :=
  ⟨increment_deletes_le_one inst create_result get_op,
    fun t ht =>
      ⟨(increment_delete_mem inst create_result get_op t ht).1,
        (increment_delete_mem inst create_result get_op t ht).2.1,
        (increment_delete_mem inst create_result get_op t ht).2.2.2⟩,
    increment_no_delete inst create_result get_op⟩

/-- Witness for C1 at a concrete run that deletes, and a run whose create
handle is empty. -/
theorem C1_witness :
    count_deletes (increment_retention c1_inst (some "operations/op1")
        c1_get_op).2 ≤ 1 ∧
    count_deletes (increment_retention c1_inst none c1_get_op).2 = 0 :=
  ⟨(C1_increment_delete_discipline c1_inst (some "operations/op1")
      c1_get_op).1,
    (C1_increment_delete_discipline c1_inst none c1_get_op).2.2
      (Or.inl rfl)⟩

set_option maxRecDepth 4000 in
/-- C2 counterexample: an instance state with 241 snapshots — 240 or more —
on which `validate_instance_requirements` nevertheless returns true, because
the source compares the snapshot count with `==` rather than `>=`. -/
theorem C2_counterexample :
    MAX_NUMBER_OF_SNAPSHOTS ≤ c2_inst.snapshots.length ∧
      validate_instance_requirements c2_inst = true := by
  constructor
  · simp [c2_inst, MAX_NUMBER_OF_SNAPSHOTS]
  · rfl

/-- C2 (amended): `validate_instance_requirements` returns true iff the tier
is allow-listed, the snapshot count is not exactly 240, and the state is
READY (counts above 240 are not rejected by the count check); and an
instance whose tier is not allow-listed never reaches create or delete. -/
theorem C2_amended_validation (inst : FilestoreInstance) (d : Json)
    (policy : String) (orc : RemoteOracle) (filer : FilestoreInstance)
    (evs : List Event)
    (hinit : init_instance d policy orc = (Except.ok filer, evs))
    (htier : tier_in_supported filer.tier = false) :
    (validate_instance_requirements inst = true ↔
      (tier_in_supported inst.tier = true ∧
        inst.snapshots.length ≠ MAX_NUMBER_OF_SNAPSHOTS ∧
        inst.state = some "READY")) ∧
    ((process_instance d policy orc).2.countP is_create = 0 ∧
      (process_instance d policy orc).2.countP is_delete = 0) := by
  refine ⟨validate_requirements_iff inst, ?_, ?_⟩
  all_goals
    apply List.countP_eq_zero.mpr
    intro e he
    have hv : validate_instance_requirements filer = false := by
      unfold validate_instance_requirements
      simp [htier]
    rcases process_trace_gate d policy orc filer evs hinit hv e he with
      h | h <;> subst h <;> simp [is_create, is_delete]

/-- Witness for C2's amended theorem at a concrete non-allow-listed tier. -/
theorem C2_amended_witness :
    (process_instance c2w_data "daily" c2w_orc).2.countP is_create = 0 ∧
      (process_instance c2w_data "daily" c2w_orc).2.countP is_delete = 0 :=
  (C2_amended_validation c2w_filer c2w_data "daily" c2w_orc c2w_filer
    [Event.get_instance, Event.list_snapshots] rfl rfl).2

/-- C3 (code bug): on an instance entry whose snapshots value does not parse
as an integer, `int(requested_snapshots)` raises an uncaught `ValueError`
that escapes `main`, contradicting the two-string return contract; entries
with an empty path or an out-of-range integer are, as claimed, skipped
individually with the rest of the batch still processed. -/
theorem C3_main_raises_on_unparsable_snapshots :
    (main (Except.ok c3_bad_request) oracles_none).1 =
        Except.error PyErr.valueError ∧
      main (Except.ok c3_skip_request) oracles_none =
        (Except.ok "done", []) :=
  ⟨rfl, rfl⟩

/-- C4 counterexample: a READY snapshot whose name does not match the
`sched-<policy>-<timestamp>` convention (it merely contains the marker as a
substring) is still selected into the scheduler-snapshot subset. -/
theorem C4_counterexample :
    c4_snap.name ∈ get_scheduler_snapshots_list [c4_snap] "daily" ∧
      matches_convention c4_snap.name "daily" = false := by
  constructor
  · simp [get_scheduler_snapshots_list, c4_snap, py_in, SNAP_PFX]
  · rfl

/-- C4 (amended): the scheduler-snapshot subset consists of exactly those
snapshots whose name contains the substring `sched-<retention_policy>-`
(Python `in`, not a full-pattern match) and whose state is READY; all
others are excluded. -/
theorem C4_amended_filter (snapshots : List Snapshot) (policy : String) :
    get_scheduler_snapshots_list snapshots policy =
      (snapshots.filter (fun s =>
        py_in (SNAP_PFX ++ policy ++ "-") s.name &&
          decide (s.state = "READY"))).map Snapshot.name ∧
    ∀ n, n ∈ get_scheduler_snapshots_list snapshots policy ↔
      ∃ s ∈ snapshots, s.name = n ∧
        py_in (SNAP_PFX ++ policy ++ "-") s.name = true ∧
        s.state = "READY" := by
  refine ⟨sched_list_eq_filter snapshots policy, fun n => ?_⟩
  rw [sched_list_eq_filter]
  simp only [List.mem_map, List.mem_filter, Bool.and_eq_true,
    decide_eq_true_eq]
  constructor
  · rintro ⟨s, ⟨hs, hin, hst⟩, rfl⟩
    exact ⟨s, hs, rfl, hin, hst⟩
  · rintro ⟨s, hs, rfl, hin, hst⟩
    exact ⟨s, ⟨hs, hin, hst⟩, rfl⟩

/-- C5: `get_oldest_scheduler_snapshot` returns none on the empty subset and
otherwise a member whose parsed timestamp epoch is minimal; on the spec's
example pair the earlier-dated snapshot is returned. -/
theorem C5_oldest_is_min_epoch (sched : List String) (policy : String)
    (epochs : String → Nat)
    (h : ∀ s ∈ sched, sched_epoch policy s = some (epochs s)) :
    (sched = [] →
      get_oldest_scheduler_snapshot sched policy = Except.ok none) ∧
    (sched ≠ [] → ∃ m,
      get_oldest_scheduler_snapshot sched policy = Except.ok (some m) ∧
        m ∈ sched ∧ ∀ s ∈ sched, epochs m ≤ epochs s) ∧
    get_oldest_scheduler_snapshot c5_example "daily" =
      Except.ok (some "sched-daily-20220101-000000") := by
  refine ⟨?_, ?_, rfl⟩
  · intro he
    subst he
    rfl
  · intro hne
    exact get_oldest_min sched policy epochs hne h

/-- Witness for C5 on the spec's example pair. -/
theorem C5_witness :
    ∃ m, get_oldest_scheduler_snapshot c5_example "daily" =
        Except.ok (some m) ∧
      m ∈ c5_example ∧ ∀ s ∈ c5_example, c5_epochs m ≤ c5_epochs s :=
  ((C5_oldest_is_min_epoch c5_example "daily" c5_epochs (by decide)).2.1
    (by decide))

/-- C6: `deletion_needed` is true iff the scheduler-snapshot count is at
least `max_snapshots`; a strictly greater count still triggers deletion and
the per-invocation delete count stays at most one (no bulk catch-up). -/
theorem C6_deletion_threshold (inst : FilestoreInstance)
    (create_result : Option String)
    (get_op : Nat → Option OperationDetails) :
    (deletion_needed inst = true ↔
      inst.max_snapshots ≤ (inst.scheduler_snapshots.length : Int)) ∧
    (inst.max_snapshots < (inst.scheduler_snapshots.length : Int) →
      deletion_needed inst = true ∧
        count_deletes (increment_retention inst create_result get_op).2 ≤ 1) :=
  ⟨deletion_needed_iff inst,
    fun hlt =>
      ⟨(deletion_needed_iff inst).mpr (le_of_lt hlt),
        increment_deletes_le_one inst create_result get_op⟩⟩

/-- Witness for C6 at a count strictly above the target. -/
theorem C6_witness :
    deletion_needed c6_inst = true ∧
      count_deletes (increment_retention c6_inst none (fun _ => none)).2 ≤ 1 :=
  (C6_deletion_threshold c6_inst none (fun _ => none)).2 (by decide)

/-- C7: the retry wrapper invokes the wrapped call at most `MAX_RETRIES = 3`
times and yields no result when all attempts fail; the monitor loop polls at
most 8 times, its sleeps are the exponential backoff `2^attempt` starting at
attempt 1, it can only report success if some poll within the bound returned
done+response, and a caller whose create step yielded no handle stops after
the create call. -/
theorem C7_bounded_retry_and_monitor {α : Type} (func : Nat → Option α)
    (get_op : Nat → Option OperationDetails) :
    (retry_run func).calls ≤ MAX_RETRIES ∧
    ((∀ i, i < MAX_RETRIES → func i = none) →
      (retry_run func).result = none) ∧
    (monitor_operation get_op).polls ≤ monitor_attempts ∧
    ((monitor_operation get_op).result = true → ∃ k, 1 ≤ k ∧
      k ≤ monitor_attempts ∧ ∃ d, get_op k = some d ∧ d.done = true ∧
        d.response = true) ∧
    (monitor_operation get_op).sleeps =
      (List.range ((monitor_operation get_op).polls - 1)).map
        (fun i => 2 ^ (1 + i)) ∧
    (∀ inst, (increment_retention inst none get_op).2 =
      [Event.create_snapshot]) := by
  refine ⟨retry_go_calls_le func 0 MAX_RETRIES, ?_,
    monitor_go_polls_le get_op 1 monitor_attempts, ?_, ?_, fun inst => rfl⟩
  · intro h
    exact retry_go_exhaust func 0 MAX_RETRIES
      (fun i h1 h2 => h i (by omega))
  · intro h
    rcases monitor_go_true_reaches get_op 1 monitor_attempts h with
      ⟨k, hk1, hk2, hd⟩
    exact ⟨k, hk1, by omega, hd⟩
  · exact monitor_go_sleeps get_op 1 monitor_attempts (by omega)

/-- Witness for C7 on an always-failing oracle. -/
theorem C7_witness :
    (retry_run (fun _ => (none : Option Nat))).calls ≤ MAX_RETRIES ∧
    (retry_run (fun _ => (none : Option Nat))).result = none ∧
    (monitor_operation (fun _ => none)).polls ≤ monitor_attempts := by
  have h := C7_bounded_retry_and_monitor (fun _ => (none : Option Nat))
    (fun _ => none)
  exact ⟨h.1, h.2.1 (fun i _ => rfl), h.2.2.1⟩

/-- C8: `increment_retention` leaves the controller's view of remote state
(the object's fields, including its snapshot lists) unchanged; every delete
targets the construction-time oldest scheduler snapshot, which belongs to
the construction-time subset; and the snapshot name created in this
invocation, whose timestamp postdates every construction-time scheduler
snapshot, is never the deletion target. -/
theorem C8_frame_and_fresh_snapshot (d : Json) (policy : String)
    (orc : RemoteOracle) (filer : FilestoreInstance) (evs : List Event)
    (create_result : Option String) (new_epoch : Nat)
    (hinit : init_instance d policy orc = (Except.ok filer, evs))
    (hmax : 0 < filer.max_snapshots)
    (hnow : parse_time_pattern orc.now_ts = some new_epoch)
    (hp : ∀ c ∈ policy.data, c ≠ '/')
    (hn : ∀ c ∈ orc.now_ts.data, c ≠ '/')
    (hfresh : ∀ s ∈ filer.scheduler_snapshots,
      (sched_epoch policy s).getD 0 < new_epoch) :
    (increment_retention filer create_result orc.get_operation).1 = filer ∧
    (∀ t, Event.delete_snapshot t ∈
        (increment_retention filer create_result orc.get_operation).2 →
      t = filer.oldest_sched_snapshot ∧
      ∃ o, t = some o ∧ o ∈ filer.scheduler_snapshots ∧
        o ≠ snap_name policy orc.now_ts) := by
  obtain ⟨hpol, hsched, holdest, hevs⟩ := init_ok d policy orc filer evs hinit
  refine ⟨increment_state_id filer create_result orc.get_operation, ?_⟩
  intro t ht
  obtain ⟨h1, h2, h3, h4⟩ :=
    increment_delete_mem filer create_result orc.get_operation t ht
  have hlen := (deletion_needed_iff filer).mp h3
  have hne : filer.scheduler_snapshots ≠ [] := by
    intro hemp
    rw [hemp] at hlen
    simp at hlen
    omega
  obtain ⟨m, hm, hmem⟩ := get_oldest_nonempty filer.scheduler_snapshots
    policy filer.oldest_sched_snapshot hne holdest
  have hnot := snap_name_not_mem policy orc.now_ts filer.scheduler_snapshots
    new_epoch hnow hp hn hfresh
  refine ⟨h4, m, h4.trans hm, hmem, ?_⟩
  intro heq
  rw [heq] at hmem
  exact hnot hmem

/-- Witness for C8 at a concrete constructed instance whose creation
timestamp postdates its one scheduler snapshot. -/
theorem C8_witness :
    (increment_retention c8_filer (some "operations/op1")
        c8_orc.get_operation).1 = c8_filer :=
  (C8_frame_and_fresh_snapshot c8_data "daily" c8_orc c8_filer
    [Event.get_instance, Event.list_snapshots] (some "operations/op1")
    20230101000000 rfl (by decide) rfl (by decide) (by decide)
    (by decide)).1

/-- C9: top-level request validation passes iff the payload is an object
whose `retention_policy` is a non-empty string of at most 50 characters and
whose `instances` is a non-empty array of at most 8 entries (the schema
check subsumes the object/type requirements); any violation makes `main`
return "done with error" with no remote call issued. -/
theorem C9_request_validation (j : Json) (oracles : Nat → RemoteOracle) :
    (validate_json j = true ↔
      ((∃ s, jget j "retention_policy" = some (Json.str s) ∧ s ≠ "" ∧
          s.length ≤ RETENTION_NAME_LENGTH) ∧
        (∃ xs, jget j "instances" = some (Json.arr xs) ∧ xs ≠ [] ∧
          xs.length ≤ MAX_INSTANCES))) ∧
    (validate_json j = false →
      main (Except.ok j) oracles = (Except.ok "done with error", [])) := by
  refine ⟨validate_json_characterization j, fun h => ?_⟩
  unfold main
  simp [h]

/-- Witness for C9 on a payload missing both keys. -/
theorem C9_witness :
    main (Except.ok (Json.obj [])) oracles_none =
      (Except.ok "done with error", []) :=
  (C9_request_validation (Json.obj []) oracles_none).2 rfl

/-- C10: a poll whose details report done but contain neither response nor
error is treated as non-terminal — the loop continues to the next attempt
(sleeping when below the bound) — and eight such polls exhaust the loop,
returning false with exactly 8 polls. -/
theorem C10_done_without_terminal_field
    (get_op : Nat → Option OperationDetails) (a fuel : Nat)
    (h : get_op a = some stalled_details) :
    (monitor_go get_op a (fuel + 1)).result =
        (monitor_go get_op (a + 1) fuel).result ∧
    (monitor_go get_op a (fuel + 1)).polls =
        (monitor_go get_op (a + 1) fuel).polls + 1 ∧
    (a < monitor_attempts →
      (monitor_go get_op a (fuel + 1)).sleeps =
        2 ^ a :: (monitor_go get_op (a + 1) fuel).sleeps) ∧
    (monitor_operation (fun _ => some stalled_details)).result = false ∧
    (monitor_operation (fun _ => some stalled_details)).polls =
      monitor_attempts := by
  have hstep : monitor_go get_op a (fuel + 1) =
      ⟨(monitor_go get_op (a + 1) fuel).result,
        (monitor_go get_op (a + 1) fuel).polls + 1,
        (if a < monitor_attempts then [2 ^ a] else []) ++
          (monitor_go get_op (a + 1) fuel).sleeps⟩ := by
    conv_lhs => rw [monitor_go]
    simp [h, stalled_details]
  refine ⟨?_, ?_, ?_, rfl, rfl⟩
  · rw [hstep]
  · rw [hstep]
  · intro ha
    rw [hstep]
    simp [ha]

/-- Witness for C10 on an oracle that always reports the stalled shape. -/
theorem C10_witness :
    (monitor_go (fun _ => some stalled_details) 1 8).result =
      (monitor_go (fun _ => some stalled_details) 2 7).result :=
  (C10_done_without_terminal_field (fun _ => some stalled_details) 1 7
    rfl).1

end FilestoreScheduler
